import Mathlib

/-!
A shallow embedding of the explorer-file-ops repository (a native Windows
file-operation launcher in `src/fileops.cpp` plus a scripting wrapper in
`src/main.ts`) together with theorems settling a list of claims about it.

The OS calls (SHFileOperationW, FormatMessageA, MessageBox) are modelled as
oracle parameters: the embedding captures exactly what the repository code
does around them. std::string and wide-character buffers are modelled as
Lean String and List Char; machine integers stay in Nat (all status codes
and lengths in this program are non-negative and far below 2^31).
-/

namespace FileOps

/-- Wide null character, used as the multi-string separator. -/
def nullChar : Char := Char.ofNat 0

/-- Tab character, the internal separator of combileFileNames. -/
def tabChar : Char := '\t'

/-! ## printUsage and inputIsValid (fileops.cpp lines 21-93) -/

/-- Lines printed by printUsage (fileops.cpp lines 21-30): the leading
newline of the first cout yields one blank line. -/
def printUsage : List String :=
  ["",
   "usage: (action is one of: copy, move, delete)",
   "  FileOps.exe <action> --from <sourcePath> [sourcePath]* --to <directoryPath>",
   "  FileOps.exe <action> --from <sourcePath> [sourcePath]* --to <destPath> [destPath]*"]

/-- inputIsValid (fileops.cpp lines 35-93): returns the Bool result together
with the lines printed on stdout (an error line followed by the usage text
on each failure path, nothing on success). -/
def inputIsValidOut (action : String) (srcPaths destPaths : List String) :
    Bool × List String :=
  if action = "" then
    (false, "error: action is required" :: printUsage)
  else if action ≠ "copy" ∧ action ≠ "move" ∧ action ≠ "delete" then
    (false, "error: action must be one of: copy, move, delete" :: printUsage)
  else if srcPaths.length = 0 then
    (false, "at least one source path is required" :: printUsage)
  else if action = "delete" ∧ 0 < destPaths.length then
    (false, "error: cannot specify destination path when action is delete" :: printUsage)
  else if action ≠ "delete" ∧ destPaths.length = 0 then
    (false, "error: at least one destination path is required when action is not delete" :: printUsage)
  else if srcPaths.length < destPaths.length then
    (false, "error: number of destination paths cannot be more than number of source paths" :: printUsage)
  else if 1 < srcPaths.length ∧ 1 < destPaths.length ∧ srcPaths.length ≠ destPaths.length then
    (false, "error: number of source and destination paths must match when more than one destination path is specified" :: printUsage)
  else
    (true, [])

/-- The Bool component of inputIsValid, as used by main. -/
def inputIsValid (action : String) (srcPaths destPaths : List String) : Bool :=
  (inputIsValidOut action srcPaths destPaths).fst

/-- The five validation rules exactly as the specification states them
(spec section 4.1), written independently of the source for comparison. -/
def specValidationRules (action : String) (srcPaths destPaths : List String) : Prop :=
  (action ≠ "" ∧ (action = "copy" ∨ action = "move" ∨ action = "delete")) ∧
  1 ≤ srcPaths.length ∧
  (if action = "delete" then destPaths = [] else 1 ≤ destPaths.length) ∧
  destPaths.length ≤ srcPaths.length ∧
  (1 < srcPaths.length → 1 < destPaths.length → srcPaths.length = destPaths.length)

instance (action : String) (srcPaths destPaths : List String) :
    Decidable (specValidationRules action srcPaths destPaths) := by
  unfold specValidationRules; infer_instance

/-! ## validateInput (main.ts lines 17-63)

The TypeScript wrapper accepts a string or a list for each of src and dest;
the claims quantify over pairs of path lists, and for a list input the
`([] as string[]).concat(src.length > 0 ? src : [])` normalization is the
identity, so the model takes the two lists directly. Throwing is modelled
with Except. -/

/-- validateInput (main.ts lines 17-63), restricted to list inputs. -/
def validateInput (action : String) (src dest : List String) :
    Except String (List String × List String) :=
  let srcPaths := src
  let destPaths := dest
  if srcPaths.length = 0 then
    Except.error "at least one source path is required"
  else if action ≠ "delete" ∧ destPaths.length = 0 then
    Except.error "at least one destination path is required when copying or moving"
  else if srcPaths.length < destPaths.length then
    Except.error "number of destination paths cannot be more than number of source paths"
  else if 1 < srcPaths.length ∧ 1 < destPaths.length ∧ srcPaths.length ≠ destPaths.length then
    Except.error "number of source and destination paths must match when more than one destination path is specified"
  else
    Except.ok (srcPaths, destPaths)

/-- Whether the TypeScript validateInput completes without throwing. -/
def validateInputOk (action : String) (src dest : List String) : Bool :=
  match validateInput action src dest with
  | Except.ok _ => true
  | Except.error _ => false

/-! ## stringToLpwstr and combileFileNames (fileops.cpp lines 99-111, 235-254)

A wide-character buffer is modelled as a List Char. MultiByteToWideChar is
called with length -1, so it converts the characters of the std::string and
appends the terminating null; for the character data of this program the
code-point sequence is preserved, so the model appends nullChar to the
character list. -/

/-- stringToLpwstr (fileops.cpp lines 99-111): the returned wide buffer
holds the characters of the string followed by a null terminator. -/
def stringToLpwstr (str : String) : List Char :=
  str.data ++ [nullChar]

/-- wcslen on the model buffer: the number of characters before the first
null. -/
def wcslen : List Char → Nat
  | [] => 0
  | c :: rest => if c = nullChar then 0 else wcslen rest + 1

/-- The per-character rewrite of the combileFileNames loop: a tab becomes a
null, everything else is kept. -/
def tabToNull (c : Char) : Char :=
  if c = tabChar then nullChar else c

/-- The in-place rewrite loop of combileFileNames (fileops.cpp lines
246-251): in the first n characters, replace every tab with a null. -/
def replaceTabsUpTo : Nat → List Char → List Char
  | _, [] => []
  | 0, buffer => buffer
  | n + 1, c :: rest => tabToNull c :: replaceTabsUpTo n rest

/-- combileFileNames (fileops.cpp lines 235-254): join the file names with
a tab after each, convert with stringToLpwstr, then replace each tab in the
first wcslen characters with a null. -/
def combileFileNames (files : List String) : List Char :=
  let combinedStr := files.foldl (fun acc file => acc ++ file ++ "\t") ""
  let combined := stringToLpwstr combinedStr
  replaceTabsUpTo (wcslen combined) combined

/-! ## The decode direction (from the spec, section 8)

The repository never decodes a multi-string; the spec describes the decode
used in the round-trip property: split the buffer on null terminators and
discard the trailing empty entry coming from the final terminator. -/

/-- Split a buffer into null-terminated segments: each null ends the current
segment; a final segment without a terminator still counts. -/
def splitOnNullTerminators : List Char → List (List Char)
  | [] => []
  | c :: rest =>
      if c = nullChar then
        [] :: splitOnNullTerminators rest
      else
        match splitOnNullTerminators rest with
        | [] => [[c]]
        | piece :: pieces => (c :: piece) :: pieces

/-- Decode a multi-string buffer by splitting on null terminators,
discarding the trailing empty entry from the final terminator. -/
def decodeMultiString (buffer : List Char) : List String :=
  let pieces := (splitOnNullTerminators buffer).map String.mk
  if pieces.getLast? = some "" then pieces.dropLast else pieces

/-! ## getErrorAsString (fileops.cpp lines 116-177)

FormatMessageA is an OS service; it enters the model as an oracle parameter
formatter : Nat → String. -/

/-- The fixed SHFileOperation error table (fileops.cpp lines 119-157). -/
def shFileOpErrors : List (Nat × String) :=
  [(0x71, "The source and destination files are the same file."),
   (0x72, "Multiple file paths were specified in the source buffer, but only one destination file path."),
   (0x73, "Rename operation was specified but the destination path is a different directory. Use the move operation instead."),
   (0x74, "The source is a root directory, which cannot be moved or renamed."),
   (0x75, "The operation was canceled by the user, or silently canceled if the appropriate flags were supplied to SHFileOperation."),
   (0x76, "The destination is a subtree of the source."),
   (0x78, "Security settings denied access to the source."),
   (0x79, "The source or destination path exceeded or would exceed MAX_PATH."),
   (0x7A, "The operation involved multiple destination paths, which can fail in the case of a move operation."),
   (0x7C, "The path in the source or destination or both was invalid."),
   (0x7D, "The source and destination have the same parent folder."),
   (0x7E, "The destination path is an existing file."),
   (0x80, "The destination path is an existing folder."),
   (0x81, "The name of the file exceeds MAX_PATH."),
   (0x82, "The destination is a read-only CD-ROM, possibly unformatted."),
   (0x83, "The destination is a read-only DVD, possibly unformatted."),
   (0x84, "The destination is a writable CD-ROM, possibly unformatted."),
   (0x85, "The file involved in the operation is too large for the destination media or file system."),
   (0x86, "The source is a read-only CD-ROM, possibly unformatted."),
   (0x87, "The source is a read-only DVD, possibly unformatted."),
   (0x88, "The source is a writable CD-ROM, possibly unformatted."),
   (0xB7, "MAX_PATH was exceeded during the operation."),
   (0x402, "An unknown error occurred. This is typically due to an invalid path in the source or destination. This error does not occur on Windows Vista and later."),
   (0x10000, "An unspecified error occurred on the destination."),
   (0x10074, "Destination is a root directory and cannot be renamed.")]

/-- getErrorAsString (fileops.cpp lines 116-177): look the code up in the
fixed table; if absent, fall back to the system formatter (FormatMessageA,
passed in as an oracle). -/
def getErrorAsString (formatter : Nat → String) (errorCode : Nat) : String :=
  match shFileOpErrors.lookup errorCode with
  | some message => message
  | none => formatter errorCode

/-! ## handleStatus (fileops.cpp lines 182-226) -/

/-- The Windows cancellation sentinel ERROR_CANCELLED. -/
def ERROR_CANCELLED : Nat := 1223

/-- Hex rendering of a status code as produced by the stringstream with
std::hex (fileops.cpp lines 197-199): lowercase digits, 0x prefix. -/
def toErrorHex (code : Nat) : String :=
  "0x" ++ String.mk (Nat.toDigits 16 code)

/-- What the Result Reporter produces: the stdout lines and, when a
MessageBox is shown, its caption and text. -/
structure ReportResult where
  console : List String
  dialog : Option (String × String)
deriving Repr, DecidableEq

/-- handleStatus (fileops.cpp lines 182-226). formatter is the
FormatMessageA oracle used by getErrorAsString. -/
def handleStatus (opReturnCode : Nat) (wasAborted : Bool) (action : String)
    (showErrorDialog : Bool) (formatter : Nat → String) : ReportResult :=
  if wasAborted ∨ opReturnCode = ERROR_CANCELLED then
    { console := ["cancelled"], dialog := none }
  else if opReturnCode = 0 then
    { console := ["ok"], dialog := none }
  else
    let errorHex := toErrorHex opReturnCode
    let errorMessage := getErrorAsString formatter opReturnCode
    let dialog :=
      if showErrorDialog then
        let caption := "Unable to " ++ action ++ " files (ERR " ++ errorHex ++ ")"
        if action = "copy" then some (caption, errorMessage)
        else if action = "move" then some (caption, errorMessage)
        else if action = "delete" then some (caption, errorMessage)
        else none
      else none
    { console := ["error " ++ errorHex ++ ": " ++ errorMessage], dialog := dialog }

/-! ## performFileOperation (fileops.cpp lines 259-297) -/

/-- FOF_MULTIDESTFILES from shellapi.h. -/
def FOF_MULTIDESTFILES : Nat := 0x1

/-- FOF_ALLOWUNDO from shellapi.h. -/
def FOF_ALLOWUNDO : Nat := 0x40

/-- FOF_NOCONFIRMMKDIR from shellapi.h. -/
def FOF_NOCONFIRMMKDIR : Nat := 0x200

/-- FOF_WANTNUKEWARNING from shellapi.h. -/
def FOF_WANTNUKEWARNING : Nat := 0x4000

/-- FO_MOVE from shellapi.h. -/
def FO_MOVE : Nat := 0x1

/-- FO_COPY from shellapi.h. -/
def FO_COPY : Nat := 0x2

/-- FO_DELETE from shellapi.h. -/
def FO_DELETE : Nat := 0x3

/-- The fields of SHFILEOPSTRUCTW that performFileOperation sets. wFunc is
none when no branch assigned it (the field stays uninitialized in the
source for an action outside copy, move, delete). -/
structure SHFILEOPSTRUCT where
  wFunc : Option Nat
  pFrom : List Char
  pTo : List Char
  fFlags : Nat
deriving Repr, DecidableEq

/-- The parameter block performFileOperation builds (fileops.cpp lines
263-286): flags, encoded source and destination lists, operation kind. -/
def buildOpStruct (action : String) (srcPaths destPaths : List String) :
    SHFILEOPSTRUCT :=
  let baseFlags := FOF_ALLOWUNDO ||| FOF_NOCONFIRMMKDIR ||| FOF_WANTNUKEWARNING
  let fFlags := if 1 < destPaths.length then baseFlags ||| FOF_MULTIDESTFILES else baseFlags
  let pFrom := combileFileNames srcPaths
  let pTo := combileFileNames destPaths
  let wFunc :=
    if action = "copy" then some FO_COPY
    else if action = "move" then some FO_MOVE
    else if action = "delete" then some FO_DELETE
    else none
  { wFunc := wFunc, pFrom := pFrom, pTo := pTo, fFlags := fFlags }

/-- The two path lists performFileOperation hands to combileFileNames, in
call order (fileops.cpp lines 272 and 276): the source list, then the
destination list — both unconditionally. -/
def encoderCalls (srcPaths destPaths : List String) : List (List String) :=
  [srcPaths, destPaths]

/-- What one run of performFileOperation produces: the returned status and
the report printed and shown by handleStatus. -/
structure OpResult where
  status : Nat
  report : ReportResult
deriving Repr, DecidableEq

/-- performFileOperation (fileops.cpp lines 259-297). shellFileOp is the
SHFileOperationW oracle: from the parameter block it yields the integer
return status and the fAnyOperationsAborted output flag. -/
def performFileOperation (shellFileOp : SHFILEOPSTRUCT → Nat × Bool)
    (formatter : Nat → String) (action : String)
    (srcPaths destPaths : List String) (showErrorDialog : Bool) : OpResult :=
  let op := buildOpStruct action srcPaths destPaths
  let result := shellFileOp op
  let report := handleStatus result.fst result.snd action showErrorDialog formatter
  { status := result.fst, report := report }

/-! ## main (fileops.cpp lines 302-343), after CLI parsing -/

/-- One whole run of the launcher after argument parsing: exit code, whether
the OS file-operation call ran, and the stdout lines. -/
structure RunResult where
  exitCode : Nat
  osInvoked : Bool
  console : List String
deriving Repr, DecidableEq

/-- The tail of main (fileops.cpp lines 338-342): validate, and either exit
with code 1 or run performFileOperation and exit with its status. -/
def mainRun (shellFileOp : SHFILEOPSTRUCT → Nat × Bool)
    (formatter : Nat → String) (action : String)
    (srcPaths destPaths : List String) (showErrorDialog : Bool) : RunResult :=
  let validation := inputIsValidOut action srcPaths destPaths
  if validation.fst then
    let result := performFileOperation shellFileOp formatter action srcPaths destPaths showErrorDialog
    { exitCode := result.status, osInvoked := true, console := result.report.console }
  else
    { exitCode := 1, osInvoked := false, console := validation.snd }

/-! ## Theorems -/

/-- Shared characterization of the validator: inputIsValid accepts exactly
when the five rules of the specification hold. -/
theorem inputIsValid_characterization (action : String) (srcPaths destPaths : List String) :
    inputIsValid action srcPaths destPaths = true ↔
      specValidationRules action srcPaths destPaths := by
  simp only [inputIsValid, inputIsValidOut, specValidationRules]
  split_ifs <;> simp_all [← List.length_eq_zero, Nat.one_le_iff_ne_zero] <;>
    first
    | omega
    | tauto

/-- Claim C2: inputIsValid accepts exactly when the five validation rules
of the specification hold, and in particular 3 sources with 2 destinations
is rejected while 3 sources with 1 destination is accepted. -/
theorem inputIsValid_iff_spec_rules :
    (∀ (action : String) (srcPaths destPaths : List String),
        inputIsValid action srcPaths destPaths = true ↔
          specValidationRules action srcPaths destPaths) ∧
    inputIsValid "copy" ["a", "b", "c"] ["d", "e"] = false ∧
    inputIsValid "copy" ["a", "b", "c"] ["d"] = true :=
  ⟨inputIsValid_characterization, by decide, by decide⟩

/-- Claim C2 witness: the characterization applied at a concrete accepted
input. -/
theorem inputIsValid_iff_spec_rules_witness :
    inputIsValid "copy" ["a", "b", "c"] ["d"] = true :=
  inputIsValid_iff_spec_rules.2.2

/-- Claim C9, counterexample: for a delete with one source and one
destination path the TypeScript validateInput completes without throwing
while the C++ inputIsValid rejects, so the two validators are not
identical. -/
theorem validators_differ_on_delete_dest :
    validateInputOk "delete" ["C:\\a.txt"] ["C:\\b.txt"] = true ∧
    inputIsValid "delete" ["C:\\a.txt"] ["C:\\b.txt"] = false := by
  decide

/-- Claim C9, amended: the two validators agree for copy and move on all
path lists, and for delete whenever the destination list is empty; for
delete the TypeScript validator is strictly more permissive, accepting
everything the C++ validator accepts (it lacks the rule rejecting a
nonempty destination list for delete). -/
theorem validators_agree_except_delete_dest :
    ∀ (action : String) (src dest : List String),
      ((action = "copy" ∨ action = "move") →
        (inputIsValid action src dest = true ↔ validateInputOk action src dest = true)) ∧
      (action = "delete" → dest = [] →
        (inputIsValid action src dest = true ↔ validateInputOk action src dest = true)) ∧
      (action = "delete" → inputIsValid action src dest = true →
        validateInputOk action src dest = true) := by
  intro action src dest
  refine ⟨fun hact => ?_, fun hact hdest => ?_, fun hact hvalid => ?_⟩
  · rcases hact with h | h <;> subst h <;>
      simp only [inputIsValid, inputIsValidOut, validateInputOk, validateInput] <;>
      split_ifs <;> simp_all
  · subst hact; subst hdest
    simp only [inputIsValid, inputIsValidOut, validateInputOk, validateInput]
    split_ifs <;> simp_all
  · subst hact
    simp only [inputIsValid, inputIsValidOut, validateInputOk, validateInput] at hvalid ⊢
    split_ifs at hvalid ⊢
    simp_all

/-- Claim C9 witness: applying the agreement theorem at a concrete copy. -/
theorem validators_agree_witness :
    inputIsValid "copy" ["a"] ["b"] = true ↔ validateInputOk "copy" ["a"] ["b"] = true :=
  (validators_agree_except_delete_dest "copy" ["a"] ["b"]).1 (Or.inl rfl)

/-- Claim C5: encoding the list of the two paths C:\a.txt and C:\b.txt and
decoding the buffer by splitting on null terminators (discarding the
trailing empty entry) yields the original list. -/
theorem encode_decode_concrete_roundtrip :
    decodeMultiString (combileFileNames ["C:\\a.txt", "C:\\b.txt"]) =
      ["C:\\a.txt", "C:\\b.txt"] := by
  decide

/-- Claim C1, counterexample: at statusCode 0 with the aborted flag set,
handleStatus prints cancelled, not ok — the claim requires statusCode 0 to
print ok. -/
theorem handleStatus_zero_aborted_prints_cancelled :
    (handleStatus 0 true "copy" false (fun _ => "message")).console = ["cancelled"] ∧
    (["cancelled"] : List String) ≠ ["ok"] := by
  decide

/-- Claim C1, amended: the cancellation check comes first — if the aborted
flag is set or the status equals ERROR_CANCELLED the reporter prints
cancelled; otherwise a status of 0 prints ok; otherwise it prints exactly
one line, error 0x hex colon message. -/
theorem handleStatus_state_machine :
    ∀ (code : Nat) (aborted : Bool) (action : String) (dlg : Bool)
      (formatter : Nat → String),
      ((aborted = true ∨ code = ERROR_CANCELLED) →
        (handleStatus code aborted action dlg formatter).console = ["cancelled"]) ∧
      (aborted = false → code = 0 →
        (handleStatus code aborted action dlg formatter).console = ["ok"]) ∧
      (aborted = false → code ≠ 0 → code ≠ ERROR_CANCELLED →
        (handleStatus code aborted action dlg formatter).console =
          ["error " ++ toErrorHex code ++ ": " ++ getErrorAsString formatter code]) := by
  intro code aborted action dlg formatter
  refine ⟨fun h => ?_, fun h1 h2 => ?_, fun h1 h2 h3 => ?_⟩ <;>
    simp only [handleStatus] <;>
    split_ifs <;>
    simp_all [ERROR_CANCELLED]

/-- Claim C1 witness: the amended state machine applied at concrete
inputs. -/
theorem handleStatus_state_machine_witness :
    (handleStatus 0 false "copy" false (fun _ => "m")).console = ["ok"] :=
  (handleStatus_state_machine 0 false "copy" false (fun _ => "m")).2.1 rfl rfl

/-- Claim C8: for the three recognized actions, handleStatus shows a modal
dialog iff showErrorDialog is true and the outcome is Failed (aborted flag
clear, status nonzero and not the cancellation sentinel); the caption is
Unable to action files (ERR hex) with the translated message as body, and
a cancelled outcome never shows a dialog. -/
theorem handleStatus_dialog_iff :
    ∀ (code : Nat) (aborted : Bool) (action : String) (dlg : Bool)
      (formatter : Nat → String),
      (action = "copy" ∨ action = "move" ∨ action = "delete") →
      (((handleStatus code aborted action dlg formatter).dialog ≠ none) ↔
        (dlg = true ∧ aborted = false ∧ code ≠ 0 ∧ code ≠ ERROR_CANCELLED)) ∧
      (∀ caption text,
        (handleStatus code aborted action dlg formatter).dialog = some (caption, text) →
          caption = "Unable to " ++ action ++ " files (ERR " ++ toErrorHex code ++ ")" ∧
          text = getErrorAsString formatter code) ∧
      ((aborted = true ∨ code = ERROR_CANCELLED) →
        (handleStatus code aborted action dlg formatter).dialog = none) := by
  intro code aborted action dlg formatter hact
  refine ⟨?_, fun caption text h => ?_, fun h => ?_⟩ <;>
    simp only [handleStatus] at * <;>
    split_ifs at * <;>
    rcases hact with ha | ha | ha <;>
    simp_all <;>
    (intros; simp_all)

/-- Claim C8 witness: the dialog equivalence applied at a concrete failed
copy with the dialog enabled. -/
theorem handleStatus_dialog_iff_witness :
    ((handleStatus 0x71 false "copy" true (fun _ => "m")).dialog ≠ none) ↔
      (true = true ∧ false = false ∧ (0x71 : Nat) ≠ 0 ∧ (0x71 : Nat) ≠ ERROR_CANCELLED) :=
  (handleStatus_dialog_iff 0x71 false "copy" true (fun _ => "m") (Or.inl rfl)).1

/-- Claim C4: the error table maps 0x71 to exactly the fixed same-file
message; 0x12345 is absent from the table, so getErrorAsString returns the
system formatter text for it, and whenever the formatter never returns an
empty string neither does the fallback. -/
theorem getErrorAsString_table_and_fallback :
    ∀ formatter : Nat → String, (∀ c, formatter c ≠ "") →
      getErrorAsString formatter 0x71 =
        "The source and destination files are the same file." ∧
      (∀ c, shFileOpErrors.lookup c = none →
        getErrorAsString formatter c = formatter c) ∧
      shFileOpErrors.lookup 0x12345 = none ∧
      getErrorAsString formatter 0x12345 = formatter 0x12345 ∧
      getErrorAsString formatter 0x12345 ≠ "" := by
  intro formatter hne
  have habsent : shFileOpErrors.lookup 0x12345 = none := by decide
  have hfall : ∀ c, shFileOpErrors.lookup c = none →
      getErrorAsString formatter c = formatter c := by
    intro c hc
    simp [getErrorAsString, hc]
  refine ⟨rfl, hfall, habsent, hfall _ habsent, ?_⟩
  rw [hfall _ habsent]
  exact hne _

/-- Claim C4 witness: the table and fallback facts at a concrete
formatter that never returns an empty string. -/
theorem getErrorAsString_witness :
    getErrorAsString (fun _ => "sys") 0x71 =
      "The source and destination files are the same file." ∧
    getErrorAsString (fun _ => "sys") 0x12345 ≠ "" := by
  have h := getErrorAsString_table_and_fallback (fun _ => "sys")
    (fun c => (by decide : ("sys" : String) ≠ ""))
  exact ⟨h.1, h.2.2.2.2⟩

/-- Claim C7: for every validated request the parameter block carries the
allow-undo, no-confirm-on-directory-creation and warn-before-permanent-
delete flags, carries the multiple-destinations flag iff more than one
destination path was supplied, and in particular allow-undo is present for
delete. -/
theorem buildOpStruct_flags :
    ∀ (action : String) (srcPaths destPaths : List String),
      inputIsValid action srcPaths destPaths = true →
      ((buildOpStruct action srcPaths destPaths).fFlags &&& FOF_ALLOWUNDO = FOF_ALLOWUNDO) ∧
      ((buildOpStruct action srcPaths destPaths).fFlags &&& FOF_NOCONFIRMMKDIR = FOF_NOCONFIRMMKDIR) ∧
      ((buildOpStruct action srcPaths destPaths).fFlags &&& FOF_WANTNUKEWARNING = FOF_WANTNUKEWARNING) ∧
      (((buildOpStruct action srcPaths destPaths).fFlags &&& FOF_MULTIDESTFILES = FOF_MULTIDESTFILES) ↔
        1 < destPaths.length) ∧
      (action = "delete" →
        (buildOpStruct action srcPaths destPaths).fFlags &&& FOF_ALLOWUNDO = FOF_ALLOWUNDO) := by
  intro action srcPaths destPaths _
  simp only [buildOpStruct, FOF_ALLOWUNDO, FOF_NOCONFIRMMKDIR, FOF_WANTNUKEWARNING,
    FOF_MULTIDESTFILES]
  by_cases h : 1 < destPaths.length <;> simp [h] <;>
    exact ⟨by decide, by decide, by decide, fun _ => by decide⟩

/-- Claim C7 witness: the flag facts at a concrete validated delete. -/
theorem buildOpStruct_flags_witness :
    (buildOpStruct "delete" ["C:\\a.txt"] []).fFlags &&& FOF_ALLOWUNDO = FOF_ALLOWUNDO :=
  (buildOpStruct_flags "delete" ["C:\\a.txt"] [] (by decide)).1

/-- Claim C6, counterexample: the validated request delete of one path has
an empty destination list, and performFileOperation passes that empty list
to combileFileNames (fileops.cpp line 276), so the empty-input edge case
of the encoder is exercised. -/
theorem encoder_gets_empty_list_on_delete :
    inputIsValid "delete" ["C:\\a.txt"] [] = true ∧
    ([] : List String) ∈ encoderCalls ["C:\\a.txt"] [] ∧
    ([] : List String).length = 0 := by
  decide

/-- Claim C6, amended: for every validated request the source list passed
to the encoder has at least one entry; for copy and move both encoded lists
have at least one entry, but for delete the destination list passed to the
encoder is empty, so the encoder runs on an empty list exactly then. -/
theorem encoderCalls_lengths :
    ∀ (action : String) (srcPaths destPaths : List String),
      inputIsValid action srcPaths destPaths = true →
      1 ≤ srcPaths.length ∧
      (action ≠ "delete" → ∀ l ∈ encoderCalls srcPaths destPaths, 1 ≤ l.length) ∧
      (action = "delete" → encoderCalls srcPaths destPaths = [srcPaths, []]) := by
  intro action srcPaths destPaths hvalid
  rw [inputIsValid_characterization] at hvalid
  obtain ⟨-, hsrc, hdest, -, -⟩ := hvalid
  refine ⟨hsrc, fun hne l hl => ?_, fun heq => ?_⟩
  · rw [if_neg hne] at hdest
    simp only [encoderCalls, List.mem_cons, List.not_mem_nil, or_false] at hl
    rcases hl with h | h <;> rw [h]
    · exact hsrc
    · exact hdest
  · rw [if_pos heq] at hdest
    rw [encoderCalls, hdest]

/-- Claim C6 witness: the amended statement applied at a concrete
validated copy. -/
theorem encoderCalls_lengths_witness :
    1 ≤ (["C:\\a.txt"] : List String).length :=
  (encoderCalls_lengths "copy" ["C:\\a.txt"] ["C:\\d"] (by decide)).1

/-! ### Round-trip lemmas for the Path List Encoder -/

/-- The character data of the tab-joined accumulation loop. -/
theorem foldl_combine_data (files : List String) (init : String) :
    (files.foldl (fun acc file => acc ++ file ++ "\t") init).data =
      init.data ++ files.flatMap (fun f => f.data ++ [tabChar]) := by
  induction files generalizing init with
  | nil => simp
  | cons f fs ih =>
      have htab : ("\t" : String).data = [tabChar] := rfl
      simp [ih, String.data_append, htab, tabChar]

/-- wcslen of a null-free prefix followed by the terminator. -/
theorem wcslen_append_null (l : List Char) (h : nullChar ∉ l) :
    wcslen (l ++ [nullChar]) = l.length := by
  induction l with
  | nil => rfl
  | cons c cs ih =>
      simp only [List.mem_cons, not_or] at h
      have hc : ¬c = nullChar := fun hcc => h.1 hcc.symm
      simp [wcslen, hc, ih h.2]

/-- The rewrite loop applied to exactly the first block of a buffer. -/
theorem replaceTabsUpTo_append (l r : List Char) :
    replaceTabsUpTo l.length (l ++ r) = l.map tabToNull ++ r := by
  induction l with
  | nil => cases r <;> rfl
  | cons c cs ih => simp [replaceTabsUpTo, ih]

/-- tabToNull is the identity on tab-free data. -/
theorem map_tabToNull_of_no_tab (l : List Char) (h : tabChar ∉ l) :
    l.map tabToNull = l := by
  induction l with
  | nil => rfl
  | cons c cs ih =>
      simp only [List.mem_cons, not_or] at h
      have hc : ¬c = tabChar := fun hcc => h.1 hcc.symm
      simp [tabToNull, hc, ih h.2]

/-- On tab-free and null-free path lists the encoder produces the
multi-string layout: each path followed by a null, then the final null. -/
theorem combileFileNames_of_clean (files : List String)
    (h : ∀ f ∈ files, tabChar ∉ f.data ∧ nullChar ∉ f.data) :
    combileFileNames files =
      files.flatMap (fun f => f.data ++ [nullChar]) ++ [nullChar] := by
  have hnonull : nullChar ∉ files.flatMap (fun f => f.data ++ [tabChar]) := by
    simp only [List.mem_flatMap, List.mem_append, List.mem_singleton, not_exists, not_and, not_or]
    intro f hf
    exact ⟨(h f hf).2, by decide⟩
  have hempty : ("" : String).data = [] := rfl
  simp only [combileFileNames, stringToLpwstr, foldl_combine_data files "",
    hempty, List.nil_append]
  rw [wcslen_append_null _ hnonull, replaceTabsUpTo_append, List.map_flatMap]
  congr 1
  refine List.flatMap_congr ?_ -- pointwise rewrite of each block
  intro f hf
  rw [List.map_append, map_tabToNull_of_no_tab _ (h f hf).1]
  rfl

/-- Splitting a buffer that starts with a null-free block and its
terminator peels off exactly that block. -/
theorem splitOnNullTerminators_block (p r : List Char) (h : nullChar ∉ p) :
    splitOnNullTerminators (p ++ nullChar :: r) = p :: splitOnNullTerminators r := by
  induction p with
  | nil => simp [splitOnNullTerminators]
  | cons c cs ih =>
      simp only [List.mem_cons, not_or] at h
      have hc : ¬c = nullChar := fun hcc => h.1 hcc.symm
      simp [splitOnNullTerminators, hc, ih h.2]

/-- Splitting the encoded layout of null-free paths yields the path data
followed by the empty entry from the final terminator. -/
theorem splitOnNullTerminators_encoded (files : List String)
    (h : ∀ f ∈ files, nullChar ∉ f.data) :
    splitOnNullTerminators (files.flatMap (fun f => f.data ++ [nullChar]) ++ [nullChar]) =
      files.map String.data ++ [[]] := by
  induction files with
  | nil => simp [splitOnNullTerminators]
  | cons f fs ih =>
      have hf : nullChar ∉ f.data := h f (by simp)
      have hrest : ∀ g ∈ fs, nullChar ∉ g.data := fun g hg => h g (by simp [hg])
      simp only [List.flatMap_cons, List.append_assoc, List.singleton_append,
        List.cons_append]
      rw [splitOnNullTerminators_block _ _ hf]
      simp [ih hrest]

/-- Rebuilding strings from their character data is the identity. -/
theorem map_mk_map_data (l : List String) :
    (l.map String.data).map String.mk = l := by
  induction l with
  | nil => rfl
  | cons a t iht =>
      simp only [List.map_cons, iht]

/-- General round-trip: on path lists free of tabs and nulls, decoding the
encoded buffer returns the original list. -/
theorem decode_combileFileNames_of_clean (files : List String)
    (h : ∀ f ∈ files, tabChar ∉ f.data ∧ nullChar ∉ f.data) :
    decodeMultiString (combileFileNames files) = files := by
  have hmk : String.mk [] = "" := rfl
  rw [combileFileNames_of_clean files h]
  simp only [decodeMultiString, splitOnNullTerminators_encoded files (fun f hf => (h f hf).2),
    List.map_append, map_mk_map_data, List.map_cons, List.map_nil, hmk,
    List.getLast?_concat, List.dropLast_concat]
  simp

/-- Claim C10: the encoder uses tab as its internal separator — on every
path list free of tabs and nulls the decode returns the input list, but a
path with an embedded tab is split at the tab, so for such an input the
decode does not return the input list. -/
theorem tab_separator_roundtrip_and_failure :
    (∀ files : List String,
        (∀ f ∈ files, tabChar ∉ f.data ∧ nullChar ∉ f.data) →
        decodeMultiString (combileFileNames files) = files) ∧
    decodeMultiString (combileFileNames ["a\tb"]) = ["a", "b"] ∧
    (["a", "b"] : List String) ≠ ["a\tb"] :=
  ⟨decode_combileFileNames_of_clean, by decide, by decide⟩

/-- Claim C10 witness: the general round-trip applied to a concrete
tab-free list. -/
theorem tab_separator_roundtrip_witness :
    decodeMultiString (combileFileNames ["ab", "cd"]) = ["ab", "cd"] :=
  tab_separator_roundtrip_and_failure.1 ["ab", "cd"] (by decide)

/-! ### The launcher process -/

/-- On every failing validation the validator prints one error line
followed by the usage text. -/
theorem inputIsValidOut_failure_shape (action : String) (srcPaths destPaths : List String)
    (h : inputIsValid action srcPaths destPaths = false) :
    ∃ msg, (inputIsValidOut action srcPaths destPaths).snd = msg :: printUsage := by
  simp only [inputIsValid, inputIsValidOut] at h ⊢
  split_ifs at h ⊢ <;> exact ⟨_, rfl⟩

/-- Claim C3: an invocation failing validation exits with code 1, prints
the usage text and never invokes the OS file-operation call; an invocation
passing validation invokes it, and its exit code is the raw status the OS
call returned. -/
theorem mainRun_exit_and_invocation :
    ∀ (shellFileOp : SHFILEOPSTRUCT → Nat × Bool) (formatter : Nat → String)
      (action : String) (srcPaths destPaths : List String) (showErrorDialog : Bool),
      (inputIsValid action srcPaths destPaths = false →
        (mainRun shellFileOp formatter action srcPaths destPaths showErrorDialog).exitCode = 1 ∧
        (mainRun shellFileOp formatter action srcPaths destPaths showErrorDialog).osInvoked = false ∧
        List.IsSuffix printUsage
          (mainRun shellFileOp formatter action srcPaths destPaths showErrorDialog).console) ∧
      (inputIsValid action srcPaths destPaths = true →
        (mainRun shellFileOp formatter action srcPaths destPaths showErrorDialog).osInvoked = true ∧
        (mainRun shellFileOp formatter action srcPaths destPaths showErrorDialog).exitCode =
          (shellFileOp (buildOpStruct action srcPaths destPaths)).fst) := by
  intro shellFileOp formatter action srcPaths destPaths showErrorDialog
  constructor
  · intro h
    obtain ⟨msg, hmsg⟩ := inputIsValidOut_failure_shape action srcPaths destPaths h
    simp only [inputIsValid] at h
    simp [mainRun, h, hmsg]
  · intro h
    simp only [inputIsValid] at h
    simp [mainRun, h, performFileOperation]

/-- Claim C3 witness: zero source paths fail validation and give exit code
1 without invoking the OS call; a validated delete exits with the status
of the (stubbed) OS call. -/
theorem mainRun_exit_witness :
    (mainRun (fun _ => (0, false)) (fun _ => "m") "delete" [] [] false).exitCode = 1 ∧
    (mainRun (fun _ => (0, false)) (fun _ => "m") "delete" [] [] false).osInvoked = false ∧
    (mainRun (fun _ => (0, false)) (fun _ => "m") "delete" ["C:\\a.txt"] [] false).osInvoked = true :=
  ⟨((mainRun_exit_and_invocation (fun _ => (0, false)) (fun _ => "m") "delete" [] [] false).1
      (by decide)).1,
   ((mainRun_exit_and_invocation (fun _ => (0, false)) (fun _ => "m") "delete" [] [] false).1
      (by decide)).2.1,
   ((mainRun_exit_and_invocation (fun _ => (0, false)) (fun _ => "m") "delete" ["C:\\a.txt"] [] false).2
      (by decide)).1⟩

end FileOps
